import Mathlib

/-!
Shallow embedding of the loot-decision engine of the wowlc repository.

The definitions below are translated from the Python sources
src/wowlc/tools/get_item_candidates.py and src/wowlc/services/lc_processor.py.
Dates are modelled as integers (day numbers), pandas DataFrames as lists of
records, Python dicts as association lists, and float credit values as
rational numbers.
-/

/-- Model of Python str.lower(), lower-casing character by character.
Defined on the underlying character list so that it evaluates in the kernel. -/
def pyLower (s : String) : String := ⟨s.data.map Char.toLower⟩

/-! ## Attendance (get_item_candidates.py, calculate_attendance_percentage) -/

/-- Row of the attendance DataFrame: columns raid_date, raid_name,
character_name, credit, remark (only the columns the computation reads
are carried). -/
structure AttendanceRow where
  raid_date : Int
  character_name : String
  credit : ℚ
deriving Repr, DecidableEq

/-- Translation of calculate_attendance_percentage: filter the table to the
lookback window, count distinct raid dates, sum the credits of the rows whose
character_name matches case-insensitively, and return credit sum over distinct
dates times 100.  Empty window returns 0. -/
def calculate_attendance_percentage (attendance_df : List AttendanceRow)
    (character_name : String) (reference_date : Int) (lookback_days : Int) : ℚ :=
  let start_date := reference_date - lookback_days
  let period_attendance := attendance_df.filter (fun r =>
    decide (start_date ≤ r.raid_date) && decide (r.raid_date ≤ reference_date))
  if period_attendance.isEmpty then 0
  else
    let total_raids := (period_attendance.map (·.raid_date)).dedup.length
    if total_raids = 0 then 0
    else
      let char_attendance := period_attendance.filter (fun r =>
        pyLower r.character_name == pyLower character_name)
      let total_credit := (char_attendance.map (·.credit)).sum
      (total_credit / (total_raids : ℚ)) * 100

/-! ## Session allocation tracker (lc_processor.py, LootCouncilProcessor) -/

/-- Association-list model of a Python dict from player name to count.
Reading takes the first binding of the key; keys are unique in every dict
the code actually builds. -/
def dictGet (d : List (String × Nat)) (k : String) : Nat :=
  match d.find? (fun p => p.1 == k) with
  | some p => p.2
  | none => 0

/-- Dict assignment: replace the binding of the key in place if present,
otherwise append a new binding at the end (Python dict insertion order). -/
def dictSet : List (String × Nat) → String → Nat → List (String × Nat)
  | [], k, v => [(k, v)]
  | p :: t, k, v => if p.1 == k then (k, v) :: t else p :: dictSet t k v

/-- Translation of LootCouncilProcessor.record_allocation: a falsy player
name (None or the empty string) is ignored, otherwise the count of the name
is incremented.  The Python None argument is modelled by Option.none. -/
def record_allocation (d : List (String × Nat)) (player_name : Option String) :
    List (String × Nat) :=
  match player_name with
  | none => d
  | some p => if p = "" then d else dictSet d p (dictGet d p + 1)

/-- Translation of LootCouncilProcessor.reset_session_allocations: the table
becomes empty. -/
def reset_session_allocations : List (String × Nat) := []

/-- Translation of LootCouncilProcessor.get_candidate_allocations: the
sub-dict of entries whose name is among the candidate names and whose count
is positive, in table order. -/
def get_candidate_allocations (d : List (String × Nat))
    (candidate_names : List String) : List (String × Nat) :=
  d.filter (fun p => candidate_names.contains p.1 && decide (0 < p.2))

/-- Iterated record_allocation of one name, modelling N successive calls. -/
def recordN (d : List (String × Nat)) (n : String) : Nat → List (String × Nat)
  | 0 => d
  | k + 1 => record_allocation (recordN d n k) (some n)


/-! ## TMB tabular data (consumed data contracts) -/

/-- Python whitespace class used by str.strip and the regex class backslash-s
(ASCII subset). -/
def isPySpace (c : Char) : Bool :=
  c == ' ' || c == '\t' || c == '\n' || c == '\r' || c == '\x0b' || c == '\x0c'

/-- Model of Python str.strip(): drop whitespace from both ends. -/
def pyStrip (s : String) : String :=
  ⟨((s.data.dropWhile isPySpace).reverse.dropWhile isPySpace).reverse⟩

/-- Wishlist entry of one raider: item id, rank order, offspec flag,
received flag and optional received date. -/
structure WishItem where
  item_id : Nat
  order : Nat
  is_offspec : Bool
  is_received : Bool
  received_at : Option Int
deriving Repr, DecidableEq

/-- Row of the wishlists DataFrame: raider name and wishlist entries. -/
structure WishlistRow where
  name : String
  wishlist : List WishItem
deriving Repr, DecidableEq

/-- Row of the raider profiles DataFrame. -/
structure Profile where
  name : String
  class_name : String
  spec : String
  archetype : String
  is_alt : Bool
deriving Repr, DecidableEq

/-- Entry of the received-loot list of one raider. -/
structure ReceivedItem where
  is_offspec : Bool
  received_at : Option Int
deriving Repr, DecidableEq

/-- Row of the received-loot DataFrame. -/
structure ReceivedRow where
  name : String
  received : List ReceivedItem
deriving Repr, DecidableEq

/-- Row of the item-notes DataFrame. -/
structure ItemNote where
  id : Nat
  name : String
  prio_note : Option String
deriving Repr, DecidableEq

/-- Translation of count_recent_loot: number of mainspec entries of the
raider received inside the lookback window ending at the reference date. -/
def count_recent_loot (received_df : List ReceivedRow) (character_name : String)
    (reference_date : Int) (lookback_days : Int) : Nat :=
  let start_date := reference_date - lookback_days
  match received_df.find? (fun r => pyLower r.name == pyLower character_name) with
  | none => 0
  | some row =>
    (row.received.filter (fun it =>
      !it.is_offspec &&
      match it.received_at with
      | none => false
      | some d => decide (start_date ≤ d) && decide (d ≤ reference_date))).length

/-- Translation of get_item_note: look the note up by item id first, fall back
to case-insensitive name matching, and return the note only when it is a
non-blank string (Python truthiness plus a strip check). -/
def get_item_note (item_notes_df : List ItemNote) (item_id : Nat)
    (item_name : String) : Option String :=
  let by_id := item_notes_df.filter (fun r => r.id == item_id)
  let note_row :=
    if by_id.isEmpty then
      item_notes_df.filter (fun r => pyLower r.name == pyLower item_name)
    else by_id
  match note_row with
  | [] => none
  | r :: _ =>
    match r.prio_note with
    | some s => if s ≠ "" ∧ pyStrip s ≠ "" then some s else none
    | none => none

/-! ## Item catalog (nexus_manager.py, NexusItemManager) -/

/-- Catalog item record, the fields the engine reads from the nexus data. -/
structure NexusItem where
  itemId : Nat
  name : String
  itemLevel : Option Nat
  slot : Option String
deriving Repr, DecidableEq

/-- Translation of NexusItemManager.get_item_id: the id of the first catalog
item whose name matches case-insensitively, if any. -/
def get_item_id (nexus : List NexusItem) (item_name : String) : Option Nat :=
  (nexus.find? (fun it => pyLower it.name == pyLower item_name)).map (·.itemId)

/-- Translation of NexusItemManager.get_item_name: the stored name, or a
generated placeholder when the id is unknown. -/
def get_item_name (nexus : List NexusItem) (item_id : Nat) : String :=
  match nexus.find? (fun it => it.itemId == item_id) with
  | some it => it.name
  | none => "Item " ++ toString item_id

/-- Translation of NexusItemManager.get_item_level. -/
def get_item_level (nexus : List NexusItem) (item_id : Nat) : Option Nat :=
  (nexus.find? (fun it => it.itemId == item_id)).bind (·.itemLevel)

/-- Translation of NexusItemManager.get_item_slot. -/
def get_item_slot (nexus : List NexusItem) (item_id : Nat) : Option String :=
  (nexus.find? (fun it => it.itemId == item_id)).bind (·.slot)

/-! ## Tier tokens and exchange items (get_item_candidates.py) -/

/-- Tier token entry of tokens.json (compatible items in their string form,
the item_name field of the dict form). -/
structure TierToken where
  token_name : String
  slot : Option String
  ilvl : Option Nat
  compatible_items : List String
deriving Repr, DecidableEq

/-- Tier group of tokens.json: a tier version with its tokens. -/
structure TierGroup where
  tier_version : Option String
  tokens : List TierToken
deriving Repr, DecidableEq

/-- Exchange entry of tokens.json: a source item with its exchangeable items. -/
structure ExchangeEntry where
  source_name : String
  ilvl : Option Nat
  items : List String
deriving Repr, DecidableEq

/-- Predicate of find_tier_token_with_version for one token: the searched
name matches the token name or any compatible item, case-insensitively. -/
def tokenMatchesName (item_lower : String) (t : TierToken) : Bool :=
  pyLower t.token_name == item_lower ||
    t.compatible_items.any (fun c => pyLower c == item_lower)

/-- Translation of find_tier_token_with_version: scan the tier groups in
order and return the first token whose name or compatible-item list matches,
together with the tier version of its group. -/
def find_tier_token_with_version (groups : List TierGroup) (item_name : String) :
    Option (TierToken × Option String) :=
  let item_lower := pyLower item_name
  groups.findSome? (fun g =>
    (g.tokens.find? (tokenMatchesName item_lower)).map (fun t => (t, g.tier_version)))

/-- Translation of find_exchange_item: the first exchange entry whose source
name or exchangeable-item list matches case-insensitively. -/
def find_exchange_item (exchange_items : List ExchangeEntry) (item_name : String) :
    Option ExchangeEntry :=
  let item_lower := pyLower item_name
  exchange_items.find? (fun e =>
    pyLower e.source_name == item_lower ||
      e.items.any (fun x => pyLower x == item_lower))

/-- Translation of get_tier_set_bonuses restricted to the Item Name column
(string-form compatible items carry no further bonus fields). -/
def get_tier_set_bonuses (t : TierToken) : List String := t.compatible_items

/-! ## Item resolution stage of generate_checking_candidates -/

/-- Guild configuration values the modelled functions read from the config
manager. -/
structure Config where
  wcl_client_version : String
  show_alt_status : Bool
  attendance_lookback_days : Int
  loot_lookback_days : Int
  metric_order : List String
  show_attendance : Bool
  show_recent_loot : Bool
  show_wishlist_position : Bool
  show_parses : Bool
  currently_equipped_enabled : Bool
  show_ilvl_comparisons : Bool
  show_tier_token_counts : Bool
  show_last_item_received : Bool
deriving Repr, DecidableEq

/-- Client-version test of generate_checking_candidates: the stripped,
lower-cased configured version is tbc or tbc anniversary. -/
def isTBCClient (cfg : Config) : Bool :=
  let v := pyLower (pyStrip cfg.wcl_client_version)
  v == "tbc" || v == "tbc anniversary"

/-- Python truthiness guard on an optional item id: ids are appended to the
checked-id list only when present and nonzero. -/
def truthyId : Option Nat → List Nat
  | some i => if i ≠ 0 then [i] else []
  | none => []

/-- Item ids checked for a tier token: the id of the token itself followed by
the ids of all compatible items, each included only when the catalog resolves
the name (lines 449-462 of get_item_candidates.py). -/
def token_item_ids (nexus : List NexusItem) (t : TierToken) : List Nat :=
  truthyId (get_item_id nexus t.token_name) ++
    t.compatible_items.flatMap (fun c => truthyId (get_item_id nexus c))

/-- Item ids checked for an exchange item: the source id followed by the ids
of all exchangeable items (lines 466-476 of get_item_candidates.py). -/
def exchange_item_ids (nexus : List NexusItem) (e : ExchangeEntry) : List Nat :=
  truthyId (get_item_id nexus e.source_name) ++
    e.items.flatMap (fun x => truthyId (get_item_id nexus x))

/-- Single quote character, written by code so the string literal holds no
bare apostrophe. -/
def sqCh : String := "\x27"

/-- Output of the resolution stage: the direct catalog id of the requested
name, the expanded id set, the chosen item level and slot, the matched token
or exchange entry, and the display header. -/
structure ResolvedItem where
  item_id : Nat
  item_ids_to_check : List Nat
  item_ilvl : Option Nat
  item_slot : Option String
  tier_token : Option TierToken
  tier_version : Option String
  exchange_item : Option ExchangeEntry
  header : String
deriving Repr, DecidableEq

/-- Translation of the resolution part of generate_checking_candidates
(lines 430-507): tier tokens are looked up first (TBC clients only), then
exchange items; the plain catalog lookup always runs and its failure raises
the item-not-found error; token and exchange data override item level and
slot, and the header is tagged accordingly. -/
def resolve_item (cfg : Config) (nexus : List NexusItem) (groups : List TierGroup)
    (exchange_items : List ExchangeEntry) (item_name : String) :
    Except String ResolvedItem :=
  let tokRes :=
    if isTBCClient cfg then find_tier_token_with_version groups item_name else none
  let exchRes :=
    if isTBCClient cfg && tokRes.isNone then find_exchange_item exchange_items item_name
    else none
  let ids0 : List Nat :=
    match tokRes with
    | some (t, _) => token_item_ids nexus t
    | none =>
      match exchRes with
      | some e => exchange_item_ids nexus e
      | none => []
  match get_item_id nexus item_name with
  | none => .error ("Item " ++ sqCh ++ item_name ++ sqCh ++ " not found in item database")
  | some item_id =>
    let item_ids_to_check := if ids0.isEmpty then [item_id] else ids0
    let item_ilvl :=
      match tokRes with
      | some (t, _) => t.ilvl
      | none =>
        match exchRes with
        | some e => e.ilvl
        | none => get_item_level nexus item_id
    let item_slot :=
      match tokRes with
      | some (t, _) => t.slot
      | none => get_item_slot nexus item_id
    let canonical_name := get_item_name nexus item_id
    let ilvl_str :=
      match item_ilvl with
      | some n => if n ≠ 0 then "ilvl " ++ toString n else "ilvl ?"
      | none => "ilvl ?"
    let slot_str :=
      match item_slot with
      | some s => if s ≠ "" then s else "Unknown Slot"
      | none => "Unknown Slot"
    let tier_note :=
      if tokRes.isSome then " [TIER TOKEN]"
      else if exchRes.isSome then " [EXCHANGE ITEM]" else ""
    .ok {
      item_id := item_id
      item_ids_to_check := item_ids_to_check
      item_ilvl := item_ilvl
      item_slot := item_slot
      tier_token := tokRes.map (·.1)
      tier_version := tokRes.bind (·.2)
      exchange_item := exchRes
      header := "Candidates for: " ++ canonical_name ++ " (" ++ ilvl_str ++ ") ("
        ++ slot_str ++ ")" ++ tier_note }

/-! ## Candidate eligibility engine (lines 519-562) -/

/-- Qualification of one wishlist entry against the checked id set: the id
must be in the set, a received date on or before the reference date skips the
entry, and the is_received flag with no date also skips it (the sequential
continue checks of lines 526-543). -/
def wishItemEligible (item_ids_to_check : List Nat) (reference_date : Int)
    (w : WishItem) : Bool :=
  if item_ids_to_check.contains w.item_id then
    if (match w.received_at with
        | some d => decide (d ≤ reference_date)
        | none => false) then false
    else if w.is_received && w.received_at.isNone then false
    else true
  else false

/-- Eligible-raider record appended by the scan (lines 551-556). -/
structure EligibleRaider where
  name : String
  wishlist_order : Nat
  is_offspec : Bool
  is_alt : Bool
deriving Repr, DecidableEq

/-- Profile lookup used for the is_alt flag: first profile row whose name
matches case-insensitively, defaulting to False (lines 546-549). -/
def lookup_is_alt (profiles : List Profile) (raider_name : String) : Bool :=
  match profiles.find? (fun p => pyLower p.name == pyLower raider_name) with
  | some p => p.is_alt
  | none => false

/-- Translation of the eligibility scan (lines 520-557): each wishlist row
contributes at most one eligible record, built from its first qualifying
entry (the loop breaks after appending). -/
def eligible_raiders (wishlists_df : List WishlistRow) (profiles_df : List Profile)
    (item_ids_to_check : List Nat) (reference_date : Int) : List EligibleRaider :=
  wishlists_df.filterMap (fun row =>
    (row.wishlist.find? (wishItemEligible item_ids_to_check reference_date)).map
      (fun w =>
        { name := row.name
          wishlist_order := w.order
          is_offspec := w.is_offspec
          is_alt := lookup_is_alt profiles_df row.name }))

/-! ## Candidate rows and generate_checking_candidates -/

/-- Round-half-to-even of a rational to an integer, the rounding mode of
Python round (the Python source rounds exact binary floats; the model rounds
the exact rational value). -/
def roundHalfToEven (q : ℚ) : ℤ :=
  let f := ⌊q⌋
  let r := q - (f : ℚ)
  if r < 1/2 then f
  else if (1:ℚ)/2 < r then f + 1
  else if f % 2 = 0 then f else f + 1

/-- Model of Python round(x, 1). -/
def round1 (q : ℚ) : ℚ := ((roundHalfToEven (q * 10) : ℚ)) / 10

/-- Row of the candidates DataFrame (lines 611-620). -/
structure CandidateRow where
  raider_name : String
  class_spec : String
  role : String
  spec_type : String
  is_alt : Bool
  wishlist_order : Nat
  attendance_pct : ℚ
  recent_loot : Nat
deriving Repr, DecidableEq

/-- Translation of the per-candidate enrichment loop body (lines 583-620):
profile join with Unknown defaults, attendance percentage rounded to one
decimal, and recent mainspec loot count. -/
def build_candidate_row (cfg : Config) (profiles_df : List Profile)
    (received_df : List ReceivedRow) (attendance_df : List AttendanceRow)
    (reference_date : Int) (r : EligibleRaider) : CandidateRow :=
  let profile := profiles_df.find? (fun p => pyLower p.name == pyLower r.name)
  let class_spec :=
    match profile with
    | some p => p.class_name ++ "/" ++ p.spec
    | none => "Unknown"
  let role :=
    match profile with
    | some p => p.archetype
    | none => "Unknown"
  let attendance_pct := calculate_attendance_percentage attendance_df r.name
    reference_date cfg.attendance_lookback_days
  let recent_loot := count_recent_loot received_df r.name reference_date
    cfg.loot_lookback_days
  { raider_name := r.name
    class_spec := class_spec
    role := role
    spec_type := if r.is_offspec then "Offspec" else "Mainspec"
    is_alt := r.is_alt
    wishlist_order := r.wishlist_order
    attendance_pct := round1 attendance_pct
    recent_loot := recent_loot }

/-- Insertion of a row into a list sorted by ascending wishlist order. -/
def insertByOrder (x : CandidateRow) : List CandidateRow → List CandidateRow
  | [] => [x]
  | y :: t =>
    if x.wishlist_order ≤ y.wishlist_order then x :: y :: t
    else y :: insertByOrder x t

/-- Model of candidates_df.sort_values on the Wishlist Order column
(insertion sort; pandas leaves the order of ties unspecified). -/
def sortByWishlistOrder : List CandidateRow → List CandidateRow
  | [] => []
  | x :: t => insertByOrder x (sortByWishlistOrder t)

/-- Container returned by generate_checking_candidates; the tier bonuses
DataFrame is carried as its Item Name column. -/
structure CheckingCandidatesResult where
  header : String
  item_id : Nat
  item_slot : Option String
  item_ilvl : Option Nat
  item_note : Option String
  candidates_df : List CandidateRow
  tier_bonuses_df : Option (List String)
  tier_version : Option String
deriving Repr, DecidableEq

/-- Translation of generate_checking_candidates: resolve the item (raising
item-not-found as the error case of Except), find eligible raiders, filter
alts out when alt status is disabled, and return the empty-candidates result
or the enriched, order-sorted candidate rows.  The reference date is a
parameter, standing for get_reference_date(). -/
def generate_checking_candidates (cfg : Config) (nexus : List NexusItem)
    (groups : List TierGroup) (exchange_items : List ExchangeEntry)
    (item_notes_df : List ItemNote) (wishlists_df : List WishlistRow)
    (profiles_df : List Profile) (received_df : List ReceivedRow)
    (attendance_df : List AttendanceRow) (reference_date : Int)
    (item_name : String) : Except String CheckingCandidatesResult :=
  match resolve_item cfg nexus groups exchange_items item_name with
  | .error e => .error e
  | .ok res =>
    let item_note := get_item_note item_notes_df res.item_id
      (get_item_name nexus res.item_id)
    let elig0 := eligible_raiders wishlists_df profiles_df res.item_ids_to_check
      reference_date
    let elig := if !cfg.show_alt_status then elig0.filter (fun r => !r.is_alt)
      else elig0
    if elig.isEmpty then
      .ok {
        header := res.header
        item_id := res.item_id
        item_slot := res.item_slot
        item_ilvl := res.item_ilvl
        item_note := item_note
        candidates_df := []
        tier_bonuses_df := res.tier_token.map get_tier_set_bonuses
        tier_version := res.tier_version }
    else
      .ok {
        header := res.header
        item_id := res.item_id
        item_slot := res.item_slot
        item_ilvl := res.item_ilvl
        item_note := item_note
        candidates_df := sortByWishlistOrder (elig.map
          (build_candidate_row cfg profiles_df received_df attendance_df
            reference_date))
        tier_bonuses_df := res.tier_token.map get_tier_set_bonuses
        tier_version := res.tier_version }

/-! ## Simple policy rules (generate_simple_policy_rules) -/

/-- Translation of METRIC_RULE_TEMPLATES, in its dict insertion order. -/
def METRIC_RULE_TEMPLATES : List (String × String) := [
  ("attendance", "Give preference to raiders with higher attendance percentage."),
  ("recent_loot", "Give preference to raiders who have received fewer items recently."),
  ("wishlist_position",
    "Give preference to raiders who ranked this item higher on their wishlist (lower position = more desired)."),
  ("parses", "Give preference to raiders with better parse performance."),
  ("ilvl_comparison", "Give preference to raiders with a larger ilvl difference."),
  ("tier_token_counts", "Prioritise raiders who are closer to completing 2 or 4 set tier bonus."),
  ("last_item_received", "Give preference to raiders who received an item for this slot longest ago.")]

/-- Template lookup for a metric identifier. -/
def templateFor (m : String) : Option String :=
  (METRIC_RULE_TEMPLATES.find? (fun p => p.1 == m)).map (·.2)

/-- Config-migration step of generate_simple_policy_rules (lines 937-941):
known metrics missing from the configured order are appended in template
order. -/
def fullMetricOrder (cfg : Config) : List String :=
  cfg.metric_order ++
    (METRIC_RULE_TEMPLATES.map (·.1)).filter (fun m => !cfg.metric_order.contains m)

/-- The enabled dict of generate_simple_policy_rules (lines 943-953); an
unknown metric identifier reads as disabled (dict get returning None). -/
def metricEnabled (cfg : Config) (m : String) : Bool :=
  if m == "attendance" then cfg.show_attendance
  else if m == "recent_loot" then cfg.show_recent_loot
  else if m == "wishlist_position" then cfg.show_wishlist_position
  else if m == "parses" then cfg.show_parses
  else if m == "ilvl_comparison" then
    cfg.currently_equipped_enabled && cfg.show_ilvl_comparisons
  else if m == "tier_token_counts" then
    cfg.currently_equipped_enabled && cfg.show_tier_token_counts
  else if m == "last_item_received" then cfg.show_last_item_received
  else false

/-- The numbering loop of generate_simple_policy_rules (lines 955-961):
enabled metrics with a template emit a numbered rule and advance the
counter, all others are skipped. -/
def buildRules (cfg : Config) : List String → Nat → List String
  | [], _ => []
  | m :: ms, rule_num =>
    if metricEnabled cfg m && (templateFor m).isSome then
      ("RULE " ++ toString rule_num ++ ": " ++ (templateFor m).getD "")
        :: buildRules cfg ms (rule_num + 1)
    else buildRules cfg ms rule_num

/-- Translation of generate_simple_policy_rules. -/
def generate_simple_policy_rules (cfg : Config) : String :=
  let rules := buildRules cfg (fullMetricOrder cfg) 1
  if rules.isEmpty then "No additional rules configured."
  else String.intercalate "\n" rules

/-- Modelled from the spec: numbered rules derived from a list of rule
texts, numbering contiguously from the given starting number.  Used to
compare the numbering behaviour of the source against the claim. -/
def specNumberedRules : Nat → List String → List String
  | _, [] => []
  | n, t :: ts => ("RULE " ++ toString n ++ ": " ++ t) :: specNumberedRules (n + 1) ts

/-! ## Decision client retry loop (lc_processor.py, process_item) -/

/-- Failure classes of the external call, carrying the exception text. -/
inductive ApiError where
  | internalServer (msg : String)
  | rateLimit (msg : String)
  | apiConnection (msg : String)
  | authentication (msg : String)
  | other (msg : String)
deriving Repr, DecidableEq

/-- Outcome of one completion() call, supplied by an oracle indexed by
attempt number. -/
inductive CallOutcome where
  | ok (text : String)
  | err (e : ApiError)
deriving Repr, DecidableEq

/-- The failure classes named in the retry except clause of lines 310-311:
InternalServerError, RateLimitError, APIConnectionError. -/
def isTransientError : ApiError → Bool
  | .internalServer _ => true
  | .rateLimit _ => true
  | .apiConnection _ => true
  | .authentication _ => false
  | .other _ => false

/-- LootCouncilProcessor.MAX_RETRIES. -/
def MAX_RETRIES : Nat := 3

/-- LootCouncilProcessor.RETRY_DELAY, the initial backoff in seconds. -/
def RETRY_DELAY : ℚ := 2

/-- Translation of the retry loop of process_item (lines 297-322), indexed
by the current attempt number and the remaining retries.  Returns the sleep
delays performed and either the response text or the exception that left the
loop.  A transient error with no retries left is re-raised; a non-transient
error propagates immediately. -/
def retryAux (calls : Nat → CallOutcome) : Nat → Nat → List ℚ × Except ApiError String
  | attempt, 0 =>
    match calls attempt with
    | .ok t => ([], .ok t)
    | .err e => ([], .error e)
  | attempt, remaining + 1 =>
    match calls attempt with
    | .ok t => ([], .ok t)
    | .err e =>
      if isTransientError e then
        let d := RETRY_DELAY * 2 ^ attempt
        let res := retryAux calls (attempt + 1) remaining
        (d :: res.1, res.2)
      else ([], .error e)

/-- The retry loop as entered by process_item: attempt 0 with MAX_RETRIES
retries remaining. -/
def retry_api_call (calls : Nat → CallOutcome) : List ℚ × Except ApiError String :=
  retryAux calls 0 MAX_RETRIES

/-- Container for a single loot decision (lc_processor.py, LootDecision);
the debug fields are omitted. -/
structure LootDecision where
  item_name : String
  item_slot : Option String
  suggestion_1 : String
  suggestion_2 : String
  suggestion_3 : String
  rationale : String
  success : Bool
  error : Option String := none
deriving Repr, DecidableEq

/-- The error strings of the outer exception handlers of process_item
(lines 341-392); the payload stands for str(e). -/
def apiErrorMessage (provider : String) : ApiError → String
  | .rateLimit m => "Rate limit exceeded: " ++ m
  | .authentication m => "Invalid API key for " ++ provider ++ ": " ++ m
  | .apiConnection m => "Connection error to " ++ provider ++ ": " ++ m
  | .internalServer m => "API error (" ++ provider ++ "): " ++ m
  | .other m => "API error (" ++ provider ++ "): " ++ m

/-! ## Response parser (lc_processor.py, _parse_response) -/

/-- Case-insensitive literal matcher: consume the pattern characters at the
head of the input and return the remainder. -/
def matchCI : List Char → List Char → Option (List Char)
  | [], s => some s
  | _ :: _, [] => none
  | p :: ps, c :: cs => if c.toLower == p.toLower then matchCI ps cs else none

/-- Character class of the regex fragment [:backslash-s]: a colon or
whitespace. -/
def isColonOrSpace (c : Char) : Bool := c == ':' || isPySpace c

/-- Matcher of the regex tail [:roman-s]+([caret-n]+): a nonempty greedy run
of colons and whitespace, then a nonempty greedy capture of non-newline
characters.  When nothing follows the run, the regex backtracks and captures
the last non-newline character of the run past its first character. -/
def matchFieldSep (s : List Char) : Option (List Char) :=
  let m := s.takeWhile isColonOrSpace
  let rest := s.drop m.length
  if m.isEmpty then none
  else
    match rest with
    | _ :: _ => some (rest.takeWhile (fun c => c ≠ '\n'))
    | [] =>
      match ((m.drop 1).filter (fun c => c ≠ '\n')).getLast? with
      | some c => some [c]
      | none => none

/-- Matcher for one Suggestion field at a fixed position: the literal
Suggestion (case-insensitive), optional whitespace, the digit, then the
separator and capture. -/
def matchSuggestionAt (d : Char) (s : List Char) : Option (List Char) :=
  match matchCI "Suggestion".data s with
  | none => none
  | some s1 =>
    match s1.dropWhile isPySpace with
    | [] => none
    | c :: s2 => if c == d then matchFieldSep s2 else none

/-- Matcher for the Rationale field at a fixed position: the literal
Rationale (case-insensitive), the separator run, then a DOTALL capture of
everything that remains (backtracking one run character when the text ends
at the run). -/
def matchRationaleAt (s : List Char) : Option (List Char) :=
  match matchCI "Rationale".data s with
  | none => none
  | some s1 =>
    let m := s1.takeWhile isColonOrSpace
    let rest := s1.drop m.length
    if m.isEmpty then none
    else
      match rest with
      | _ :: _ => some rest
      | [] =>
        match (m.drop 1).getLast? with
        | some c => some [c]
        | none => none

/-- Model of re.search: try the matcher at every start position from the
left and return the first capture. -/
def searchCapture (f : List Char → Option (List Char)) : List Char → Option (List Char)
  | [] => f []
  | c :: t =>
    match f (c :: t) with
    | some r => some r
    | none => searchCapture f t

/-- Python str.strip() on a character list. -/
def pyStripChars (s : List Char) : List Char :=
  ((s.dropWhile isPySpace).reverse.dropWhile isPySpace).reverse

/-- A captured group becomes the stripped field value; a missing match
becomes the empty string. -/
def captureToField : Option (List Char) → String
  | some cs => ⟨pyStripChars cs⟩
  | none => ""

/-- Translation of LootCouncilProcessor._parse_response: extract the three
suggestions and the rationale by regex search, defaulting each missing field
to the empty string, and return a successful LootDecision. -/
def parse_response (response_text : String) (item_name : String)
    (item_slot : Option String) : LootDecision :=
  let t := response_text.data
  { item_name := item_name
    item_slot := item_slot
    suggestion_1 := captureToField (searchCapture (matchSuggestionAt '1') t)
    suggestion_2 := captureToField (searchCapture (matchSuggestionAt '2') t)
    suggestion_3 := captureToField (searchCapture (matchSuggestionAt '3') t)
    rationale := captureToField (searchCapture matchRationaleAt t)
    success := true
    error := none }

/-- Result of the prompt-generation stage consumed by process_item (the
outcome of get_item_candidates_prompt). -/
structure PromptResult where
  success : Bool
  item_name : String
  item_slot : Option String
  error : Option String
deriving Repr, DecidableEq

/-- The failed LootDecision shape built by every error branch of
process_item: empty suggestions and rationale, success False, and the given
error text. -/
def failedDecision (item_name : String) (item_slot : Option String)
    (e : Option String) : LootDecision :=
  { item_name := item_name
    item_slot := item_slot
    suggestion_1 := ""
    suggestion_2 := ""
    suggestion_3 := ""
    rationale := ""
    success := false
    error := e }

/-- Translation of the decision flow of process_item (lines 244-392) given
the prompt-stage result and the call oracle: a failed prompt stage short
circuits, the retry loop runs the external call, terminal exceptions become
a failed LootDecision with the handler message, and a response is parsed.
The session-allocation update on success is record_allocation, modelled
separately. -/
def process_item (provider : String) (prompt_result : PromptResult)
    (calls : Nat → CallOutcome) : LootDecision :=
  if !prompt_result.success then
    failedDecision prompt_result.item_name prompt_result.item_slot prompt_result.error
  else
    match (retry_api_call calls).2 with
    | .ok text => parse_response text prompt_result.item_name prompt_result.item_slot
    | .error e =>
      failedDecision prompt_result.item_name prompt_result.item_slot
        (some (apiErrorMessage provider e))


/-! ## Concrete data used by the witnesses and counterexamples -/

/-- Scenario configuration of C9: priority order wishlist_position then
attendance, with exactly those two metrics enabled. -/
def cfgScenarioC9 : Config :=
  { wcl_client_version := "tbc"
    show_alt_status := true
    attendance_lookback_days := 60
    loot_lookback_days := 14
    metric_order := ["wishlist_position", "attendance"]
    show_attendance := true
    show_recent_loot := false
    show_wishlist_position := true
    show_parses := false
    currently_equipped_enabled := false
    show_ilvl_comparisons := false
    show_tier_token_counts := false
    show_last_item_received := false }

/-- Wishlist row of the C2 counterexample: its only entry carries the
searched item id, the is_received flag, and no received date. -/
def flagNoDateRow : WishlistRow := ⟨"Ang", [⟨1, 1, false, true, none⟩]⟩

/-- Wishlist row of the C2 witness: one never-received entry with the
searched id. -/
def openWishRow : WishlistRow := ⟨"Bea", [⟨1, 2, false, false, none⟩]⟩

/-- Oracle for the retry witness: every call fails authentication. -/
def callsAlwaysAuth : Nat → CallOutcome := fun _ => .err (.authentication "bad key")

/-- Prompt-stage result for the retry witness. -/
def promptResultW : PromptResult :=
  { success := true, item_name := "it", item_slot := none, error := none }

/-- Witness catalog: a tier token and its compatible item. -/
def nexusW : List NexusItem :=
  [⟨10, "Tok", some 120, some "Head"⟩, ⟨11, "CompA", some 120, some "Head"⟩]

/-- Witness tier token. -/
def tokenW : TierToken := ⟨"Tok", some "Head", some 120, ["CompA"]⟩

/-- Witness tier groups. -/
def groupsW : List TierGroup := [⟨some "Tier 5", [tokenW]⟩]

/-- Witness configuration: TBC client, alts shown. -/
def cfgW : Config :=
  { wcl_client_version := "tbc"
    show_alt_status := true
    attendance_lookback_days := 60
    loot_lookback_days := 14
    metric_order := []
    show_attendance := true
    show_recent_loot := true
    show_wishlist_position := true
    show_parses := false
    currently_equipped_enabled := false
    show_ilvl_comparisons := false
    show_tier_token_counts := false
    show_last_item_received := false }

/-- Witness wishlist row: the raider wants the token itself. -/
def wishRowW : WishlistRow := ⟨"Cara", [⟨10, 3, false, false, none⟩]⟩

/-- Resolution result of the C3 witness lookup of compa. -/
def rTokenW : ResolvedItem :=
  ⟨11, [10, 11], some 120, some "Head", some tokenW, some "Tier 5", none,
    "Candidates for: CompA (ilvl 120) (Head) [TIER TOKEN]"⟩

/-- Witness exchange catalog. -/
def nexusE : List NexusItem :=
  [⟨20, "Badge", some 100, some "Trinket"⟩, ⟨21, "Reward", some 110, some "Chest"⟩]

/-- Witness exchange entry. -/
def exchangeEntryW : ExchangeEntry := ⟨"Badge", some 110, ["Reward"]⟩

/-! ## Theorems: C1, attendance percentage bounds -/

lemma list_sum_le_length (l : List ℚ) (h : ∀ x ∈ l, x ≤ 1) :
    l.sum ≤ (l.length : ℚ) := by
  induction l with
  | nil => simp
  | cons a t ih =>
    simp only [List.sum_cons, List.length_cons]
    have ha : a ≤ 1 := h a (by simp)
    have ht : t.sum ≤ (t.length : ℚ) := ih (fun x hx => h x (by simp [hx]))
    push_cast
    linarith

lemma nodup_subset_dedup_length {α : Type} [DecidableEq α] (l1 l2 : List α)
    (h1 : l1.Nodup) (hsub : l1 ⊆ l2) : l1.length ≤ l2.dedup.length := by
  have hsub2 : l1 ⊆ l2.dedup := fun x hx => (List.mem_dedup).mpr (hsub hx)
  exact (h1.subperm hsub2).length_le

/-- C1 (amended): the attendance percentage is nonnegative for every table
with nonnegative credits; it is at most 100 when additionally every credit is
at most 1 and no character has two attendance rows on the same raid date; and
a character with no attendance row inside the window gets exactly 0, never a
division error. -/
theorem attendance_percentage_bounds (attendance_df : List AttendanceRow)
    (character_name : String) (reference_date lookback_days : Int) :
    ((∀ r ∈ attendance_df, 0 ≤ r.credit) →
      0 ≤ calculate_attendance_percentage attendance_df character_name
            reference_date lookback_days) ∧
    ((∀ r ∈ attendance_df, 0 ≤ r.credit) → (∀ r ∈ attendance_df, r.credit ≤ 1) →
      attendance_df.Pairwise (fun r1 r2 =>
        pyLower r1.character_name = pyLower r2.character_name →
          r1.raid_date ≠ r2.raid_date) →
      calculate_attendance_percentage attendance_df character_name
        reference_date lookback_days ≤ 100) ∧
    ((∀ r ∈ attendance_df, reference_date - lookback_days ≤ r.raid_date →
        r.raid_date ≤ reference_date →
        pyLower r.character_name ≠ pyLower character_name) →
      calculate_attendance_percentage attendance_df character_name
        reference_date lookback_days = 0) := by
  set P := attendance_df.filter (fun r =>
      decide (reference_date - lookback_days ≤ r.raid_date) &&
      decide (r.raid_date ≤ reference_date)) with hPdef
  set C := P.filter (fun r => pyLower r.character_name == pyLower character_name)
    with hCdef
  set k := (P.map (·.raid_date)).dedup.length with hkdef
  have heq : calculate_attendance_percentage attendance_df character_name
      reference_date lookback_days
      = if P.isEmpty then 0 else if k = 0 then 0
        else ((C.map (·.credit)).sum / (k : ℚ)) * 100 := rfl
  have hmemP : ∀ r ∈ P, r ∈ attendance_df := fun r hr => List.mem_of_mem_filter hr
  have hmemC : ∀ r ∈ C, r ∈ attendance_df :=
    fun r hr => hmemP r (List.mem_of_mem_filter hr)
  refine ⟨?_, ?_, ?_⟩
  · intro hnn
    rw [heq]
    split_ifs with h1 h2
    · norm_num
    · norm_num
    · have hsum : 0 ≤ (C.map (·.credit)).sum := by
        apply List.sum_nonneg
        intro x hx
        obtain ⟨r, hr, rfl⟩ := List.mem_map.mp hx
        exact hnn r (hmemC r hr)
      have hk0 : (0:ℚ) ≤ (k : ℚ) := by positivity
      exact mul_nonneg (div_nonneg hsum hk0) (by norm_num)
  · intro hnn hle hpw
    rw [heq]
    split_ifs with h1 h2
    · norm_num
    · norm_num
    · have hkpos : 0 < k := Nat.pos_of_ne_zero h2
      have hsumlen : (C.map (·.credit)).sum ≤ (C.length : ℚ) := by
        have := list_sum_le_length (C.map (·.credit)) (by
          intro x hx
          obtain ⟨r, hr, rfl⟩ := List.mem_map.mp hx
          exact hle r (hmemC r hr))
        simpa using this
      have hpwC : C.Pairwise (fun a b => a.raid_date ≠ b.raid_date) := by
        have hpwP : P.Pairwise (fun r1 r2 =>
            pyLower r1.character_name = pyLower r2.character_name →
              r1.raid_date ≠ r2.raid_date) :=
          hpw.sublist (List.filter_sublist _)
        have hpwC0 : C.Pairwise (fun r1 r2 =>
            pyLower r1.character_name = pyLower r2.character_name →
              r1.raid_date ≠ r2.raid_date) :=
          hpwP.sublist (List.filter_sublist _)
        refine hpwC0.imp_of_mem ?_
        intro a b ha hb hab
        have ha2 : pyLower a.character_name = pyLower character_name := by
          have := (List.mem_filter.mp ha).2
          simpa [beq_iff_eq] using this
        have hb2 : pyLower b.character_name = pyLower character_name := by
          have := (List.mem_filter.mp hb).2
          simpa [beq_iff_eq] using this
        exact hab (ha2.trans hb2.symm)
      have hnodup : (C.map (·.raid_date)).Nodup := List.pairwise_map.mpr hpwC
      have hsubset : (C.map (·.raid_date)) ⊆ (P.map (·.raid_date)) :=
        List.map_subset _ (fun x hx => List.mem_of_mem_filter hx)
      have hlen : C.length ≤ k := by
        have := nodup_subset_dedup_length (C.map (·.raid_date))
          (P.map (·.raid_date)) hnodup hsubset
        simpa using this
      have hk1 : (0:ℚ) < (k : ℚ) := by exact_mod_cast hkpos
      have hdiv : (C.map (·.credit)).sum / (k : ℚ) ≤ 1 := by
        refine (div_le_one hk1).mpr ?_
        exact le_trans hsumlen (by exact_mod_cast hlen)
      calc ((C.map (·.credit)).sum / (k : ℚ)) * 100 ≤ 1 * 100 :=
            mul_le_mul_of_nonneg_right hdiv (by norm_num)
        _ = 100 := by norm_num
  · intro hmiss
    rw [heq]
    split_ifs with h1 h2
    · rfl
    · rfl
    · have hC : C = [] := by
        rw [hCdef]
        rw [List.filter_eq_nil_iff]
        intro r hr
        have hrdf := hmemP r hr
        have hw := (List.mem_filter.mp hr).2
        simp only [Bool.and_eq_true, decide_eq_true_eq] at hw
        have := hmiss r hrdf hw.1 hw.2
        simp [beq_iff_eq, this]
      rw [hC]
      simp

/-- C1 counterexample: a table with the single non-negative credit 2.0 makes
the attendance percentage 200, refuting the claimed upper bound of 100 under
non-negativity alone. -/
theorem attendance_percentage_counterexample :
    (∀ r ∈ [AttendanceRow.mk 0 "a" 2], 0 ≤ r.credit) ∧
    calculate_attendance_percentage [AttendanceRow.mk 0 "a" 2] "a" 0 0 = 200 ∧
    ¬ (calculate_attendance_percentage [AttendanceRow.mk 0 "a" 2] "a" 0 0 ≤ 100) := by
  have h : calculate_attendance_percentage [AttendanceRow.mk 0 "a" 2] "a" 0 0 = 200 := by
    norm_num [calculate_attendance_percentage, pyLower]
  refine ⟨by decide, h, ?_⟩
  rw [h]
  norm_num

/-- Witness for attendance_percentage_bounds at a concrete single-row table. -/
theorem attendance_percentage_bounds_witness :
    0 ≤ calculate_attendance_percentage [AttendanceRow.mk 0 "a" 1] "a" 0 0 ∧
    calculate_attendance_percentage [AttendanceRow.mk 0 "a" 1] "a" 0 0 ≤ 100 ∧
    calculate_attendance_percentage [AttendanceRow.mk 0 "b" 1] "a" 0 0 = 0 := by
  refine ⟨(attendance_percentage_bounds [AttendanceRow.mk 0 "a" 1] "a" 0 0).1
      (by decide),
    (attendance_percentage_bounds [AttendanceRow.mk 0 "a" 1] "a" 0 0).2.1
      (by decide) (by decide) (by decide), ?_⟩
  exact (attendance_percentage_bounds [AttendanceRow.mk 0 "b" 1] "a" 0 0).2.2
    (by decide)

/-! ## Theorems: C8 and C10, session allocation tracker -/

lemma dictGet_cons (p : String × Nat) (t : List (String × Nat)) (k : String) :
    dictGet (p :: t) k = if p.1 = k then p.2 else dictGet t k := by
  by_cases h : p.1 = k
  · have hb : (p.1 == k) = true := by simp [h]
    simp [dictGet, List.find?, hb, h]
  · have hb : (p.1 == k) = false := by simp [h]
    simp [dictGet, List.find?, hb, h]

lemma dictGet_dictSet_self (d : List (String × Nat)) (k : String) (v : Nat) :
    dictGet (dictSet d k v) k = v := by
  induction d with
  | nil => simp [dictSet, dictGet_cons]
  | cons p t ih =>
    by_cases h : p.1 = k
    · simp [dictSet, h, dictGet_cons]
    · have hb : (p.1 == k) = false := by simp [h]
      rw [dictSet]
      simp only [hb, Bool.false_eq_true, if_false]
      rw [dictGet_cons]
      simp [h, ih]

lemma dictGet_dictSet_other (d : List (String × Nat)) (k q : String) (v : Nat)
    (hqk : q ≠ k) : dictGet (dictSet d k v) q = dictGet d q := by
  have hkq : ¬ (k = q) := fun h2 => hqk h2.symm
  induction d with
  | nil =>
    rw [dictSet, dictGet_cons]
    simp [hkq, dictGet, List.find?]
  | cons p t ih =>
    by_cases h : p.1 = k
    · have hb : (p.1 == k) = true := by simp [h]
      rw [dictSet]
      simp only [hb, if_true]
      rw [dictGet_cons, dictGet_cons, h]
      simp [hkq]
    · have hb : (p.1 == k) = false := by simp [h]
      rw [dictSet]
      simp only [hb, Bool.false_eq_true, if_false]
      rw [dictGet_cons, dictGet_cons, ih]

lemma dictSet_fresh (d : List (String × Nat)) (k : String) (v : Nat)
    (hfresh : ∀ p ∈ d, p.1 ≠ k) : dictSet d k v = d ++ [(k, v)] := by
  induction d with
  | nil => simp [dictSet]
  | cons p t ih =>
    have hp : (p.1 == k) = false := by simp [hfresh p (by simp)]
    rw [dictSet]
    simp only [hp, Bool.false_eq_true, if_false, List.cons_append, List.cons.injEq,
      true_and]
    exact ih (fun q hq => hfresh q (by simp [hq]))

lemma dictGet_fresh (d : List (String × Nat)) (k : String)
    (hfresh : ∀ p ∈ d, p.1 ≠ k) : dictGet d k = 0 := by
  induction d with
  | nil => simp [dictGet, List.find?]
  | cons p t ih =>
    rw [dictGet_cons]
    simp [hfresh p (by simp), ih (fun q hq => hfresh q (by simp [hq]))]

lemma dictGet_append_fresh (d : List (String × Nat)) (k : String) (v : Nat)
    (hfresh : ∀ p ∈ d, p.1 ≠ k) : dictGet (d ++ [(k, v)]) k = v := by
  induction d with
  | nil => simp [dictGet_cons]
  | cons p t ih =>
    rw [List.cons_append, dictGet_cons]
    simp [hfresh p (by simp), ih (fun q hq => hfresh q (by simp [hq]))]

lemma dictSet_append_fresh (d : List (String × Nat)) (k : String) (v w : Nat)
    (hfresh : ∀ p ∈ d, p.1 ≠ k) :
    dictSet (d ++ [(k, v)]) k w = d ++ [(k, w)] := by
  induction d with
  | nil => simp [dictSet]
  | cons p t ih =>
    have hp : (p.1 == k) = false := by simp [hfresh p (by simp)]
    rw [List.cons_append, dictSet]
    simp only [hp, Bool.false_eq_true, if_false, List.cons_append, List.cons.injEq,
      true_and]
    exact ih (fun q hq => hfresh q (by simp [hq]))

lemma recordN_fresh (d : List (String × Nat)) (n : String) (hn : n ≠ "")
    (hfresh : ∀ p ∈ d, p.1 ≠ n) :
    ∀ N, 1 ≤ N → recordN d n N = d ++ [(n, N)] := by
  intro N hN
  induction N with
  | zero => omega
  | succ m ih =>
    rcases Nat.lt_or_ge 1 (m + 1) with h1 | h1
    · have hm : 1 ≤ m := by omega
      simp only [recordN, ih hm, record_allocation, hn, if_false]
      rw [dictGet_append_fresh d n m hfresh, dictSet_append_fresh d n m (m + 1) hfresh]
    · have hm : m = 0 := by omega
      subst hm
      simp only [recordN, record_allocation, hn, if_false]
      rw [dictGet_fresh d n hfresh, dictSet_fresh d n 1 hfresh]

/-- C8: recording the same non-empty raider name N times (N at least 1) on a
tracker holding no binding for that name makes get_candidate_allocations
return exactly that name with count N; and after a reset the allocations are
empty for every candidate list. -/
theorem session_allocations_record (d : List (String × Nat)) (n : String) (N : Nat)
    (hn : n ≠ "") (hN : 1 ≤ N) (hfresh : ∀ p ∈ d, p.1 ≠ n) :
    get_candidate_allocations (recordN d n N) [n] = [(n, N)] ∧
    (∀ L : List String, get_candidate_allocations reset_session_allocations L = []) := by
  constructor
  · rw [recordN_fresh d n hn hfresh N hN]
    rw [get_candidate_allocations, List.filter_append]
    have h1 : d.filter (fun p => [n].contains p.1 && decide (0 < p.2)) = [] := by
      rw [List.filter_eq_nil_iff]
      intro p hp
      simp [List.contains, hfresh p hp]
    have h0 : 0 < N := hN
    have h2 : [(n, N)].filter (fun p => [n].contains p.1 && decide (0 < p.2)) =
        [(n, N)] := by
      simp [List.contains, List.filter, h0]
    rw [h1, h2, List.nil_append]
  · intro L
    rfl

/-- Witness for session_allocations_record with one prior unrelated binding. -/
theorem session_allocations_record_witness :
    get_candidate_allocations (recordN [("x", 2)] "n" 3) ["n"] = [("n", 3)] ∧
    get_candidate_allocations reset_session_allocations ["n"] = [] :=
  ⟨(session_allocations_record [("x", 2)] "n" 3 (by decide) (by decide)
      (by decide)).1,
    (session_allocations_record [("x", 2)] "n" 3 (by decide) (by decide)
      (by decide)).2 ["n"]⟩

/-- C10: record_allocation leaves the table unchanged for a missing or empty
player name; for a non-empty name it increments exactly that name and leaves
every other name unchanged. -/
theorem record_allocation_frame (d : List (String × Nat)) (p q : String) :
    record_allocation d none = d ∧
    record_allocation d (some "") = d ∧
    (p ≠ "" → dictGet (record_allocation d (some p)) p = dictGet d p + 1) ∧
    (p ≠ "" → q ≠ p → dictGet (record_allocation d (some p)) q = dictGet d q) := by
  refine ⟨rfl, by simp [record_allocation], ?_, ?_⟩
  · intro hp
    simp only [record_allocation, hp, if_false]
    exact dictGet_dictSet_self d p (dictGet d p + 1)
  · intro hp hq
    simp only [record_allocation, hp, if_false]
    exact dictGet_dictSet_other d p q (dictGet d p + 1) hq

/-- Witness for record_allocation_frame at a one-entry table. -/
theorem record_allocation_frame_witness :
    record_allocation [("y", 1)] none = [("y", 1)] ∧
    record_allocation [("y", 1)] (some "") = [("y", 1)] ∧
    dictGet (record_allocation [("y", 1)] (some "z")) "z" = dictGet [("y", 1)] "z" + 1 ∧
    dictGet (record_allocation [("y", 1)] (some "z")) "y" = dictGet [("y", 1)] "y" := by
  have h := record_allocation_frame [("y", 1)] "z" "y"
  exact ⟨h.1, h.2.1, h.2.2.1 (by decide), h.2.2.2 (by decide) (by decide)⟩

/-! ## Theorems: C7, response parser -/

lemma searchCapture_eq_none (f : List Char → Option (List Char)) (l : List Char)
    (h : ∀ s ∈ l.tails, f s = none) : searchCapture f l = none := by
  induction l with
  | nil => exact h [] (by simp)
  | cons c t ih =>
    have hc : f (c :: t) = none := h (c :: t) (by simp [List.tails])
    rw [searchCapture, hc]
    exact ih (fun s hs => h s (by simp [List.tails, hs]))

/-- C7: the fixed-format decision text parses to suggestion_1 Alice,
suggestion_2 Bob, suggestion_3 None with the rationale captured verbatim;
and every field whose marker pattern matches nowhere in a text parses to the
empty string instead of failing. -/
theorem parse_response_roundtrip_and_defaults :
    (parse_response
        "Suggestion 1: Alice\nSuggestion 2: Bob\nSuggestion 3: None\nRationale: Alice ranked it first."
        "x" none =
      { item_name := "x", item_slot := none, suggestion_1 := "Alice",
        suggestion_2 := "Bob", suggestion_3 := "None",
        rationale := "Alice ranked it first.", success := true, error := none }) ∧
    (∀ (text item_name : String) (item_slot : Option String),
      ((∀ s ∈ text.data.tails, matchSuggestionAt '1' s = none) →
        (parse_response text item_name item_slot).suggestion_1 = "") ∧
      ((∀ s ∈ text.data.tails, matchSuggestionAt '2' s = none) →
        (parse_response text item_name item_slot).suggestion_2 = "") ∧
      ((∀ s ∈ text.data.tails, matchSuggestionAt '3' s = none) →
        (parse_response text item_name item_slot).suggestion_3 = "") ∧
      ((∀ s ∈ text.data.tails, matchRationaleAt s = none) →
        (parse_response text item_name item_slot).rationale = "")) := by
  constructor
  · decide
  · intro text item_name item_slot
    refine ⟨?_, ?_, ?_, ?_⟩ <;> intro h <;>
      simp [parse_response, searchCapture_eq_none _ _ h, captureToField]

/-- Witness for parse_response_roundtrip_and_defaults on a marker-free text. -/
theorem parse_response_defaults_witness :
    (parse_response "hello" "x" none).suggestion_1 = "" ∧
    (parse_response "hello" "x" none).suggestion_2 = "" ∧
    (parse_response "hello" "x" none).suggestion_3 = "" ∧
    (parse_response "hello" "x" none).rationale = "" := by
  have h := parse_response_roundtrip_and_defaults.2 "hello" "x" none
  exact ⟨h.1 (by decide), h.2.1 (by decide), h.2.2.1 (by decide),
    h.2.2.2 (by decide)⟩

/-! ## Theorems: C6, decision client retry policy -/

lemma retryAux_len (calls : Nat → CallOutcome) :
    ∀ (remaining attempt : Nat),
      (retryAux calls attempt remaining).1.length ≤ remaining := by
  intro remaining
  induction remaining with
  | zero =>
    intro attempt
    rcases h : calls attempt with t | e <;> simp [retryAux, h]
  | succ m ih =>
    intro attempt
    rcases h : calls attempt with t | e
    · simp [retryAux, h]
    · by_cases ht : isTransientError e = true
      · simp only [retryAux, h, ht, if_true, List.length_cons]
        exact Nat.succ_le_succ (ih (attempt + 1))
      · simp [retryAux, h, ht]

lemma retryAux_delays (calls : Nat → CallOutcome) :
    ∀ (remaining attempt i : Nat) (d : ℚ),
      (retryAux calls attempt remaining).1.get? i = some d →
      d = RETRY_DELAY * 2 ^ (attempt + i) ∧
      ∃ e, calls (attempt + i) = .err e ∧ isTransientError e = true := by
  intro remaining
  induction remaining with
  | zero =>
    intro attempt i d hd
    exfalso
    rcases hc : calls attempt with t | e <;> simp [retryAux, hc] at hd
  | succ m ih =>
    intro attempt i d hd
    rcases hc : calls attempt with t | e
    · exfalso; simp [retryAux, hc] at hd
    · by_cases ht : isTransientError e = true
      · simp only [retryAux, hc, ht, if_true] at hd
        match i with
        | 0 =>
          simp only [List.get?] at hd
          refine ⟨by simpa using hd.symm, e, by simpa using hc, ht⟩
        | j + 1 =>
          have hd2 : (retryAux calls (attempt + 1) m).1.get? j = some d := by
            simpa [List.get?] using hd
          have := ih (attempt + 1) j d hd2
          refine ⟨by rw [this.1]; ring_nf, ?_⟩
          obtain ⟨e2, he2, ht2⟩ := this.2
          exact ⟨e2, by simpa [Nat.add_assoc, Nat.add_comm 1 j] using he2, ht2⟩
      · exfalso; simp [retryAux, hc, ht] at hd

/-- C6: the external call is retried at most MAX_RETRIES times with the
exponential backoff delays RETRY_DELAY times two to the attempt, a retry
happens only after a transient failure class, an authentication failure on
the first call ends the loop immediately with no retry, and a terminal
failure makes process_item return an unsuccessful LootDecision carrying the
typed handler message instead of raising. -/
theorem process_item_retry_policy (calls : Nat → CallOutcome) (provider : String)
    (prompt_result : PromptResult) :
    (retry_api_call calls).1.length ≤ MAX_RETRIES ∧
    (∀ (i : Nat) (d : ℚ), (retry_api_call calls).1.get? i = some d →
      d = RETRY_DELAY * 2 ^ i ∧
      ∃ e, calls i = .err e ∧ isTransientError e = true) ∧
    (∀ m, calls 0 = .err (.authentication m) →
      retry_api_call calls = ([], .error (.authentication m))) ∧
    (∀ e, prompt_result.success = true → (retry_api_call calls).2 = .error e →
      (process_item provider prompt_result calls).success = false ∧
      (process_item provider prompt_result calls).error =
        some (apiErrorMessage provider e)) := by
  refine ⟨retryAux_len calls MAX_RETRIES 0, ?_, ?_, ?_⟩
  · intro i d hd
    have := retryAux_delays calls MAX_RETRIES 0 i d hd
    simpa using this
  · intro m hm
    simp [retry_api_call, MAX_RETRIES, retryAux, hm, isTransientError]
  · intro e hs he
    rcases hr : (retry_api_call calls).2 with e2 | t
    · rw [hr] at he
      have he2 : e2 = e := by simpa using he
      subst he2
      constructor <;> simp [process_item, hs, hr, failedDecision]
    · rw [hr] at he
      exact absurd he (by simp)

/-- Witness for process_item_retry_policy: an authentication failure is not
retried and surfaces as an unsuccessful decision with the typed message. -/
theorem process_item_retry_policy_witness :
    retry_api_call callsAlwaysAuth = ([], .error (.authentication "bad key")) ∧
    (process_item "anthropic" promptResultW callsAlwaysAuth).success = false ∧
    (process_item "anthropic" promptResultW callsAlwaysAuth).error =
      some (apiErrorMessage "anthropic" (.authentication "bad key")) := by
  have h := process_item_retry_policy callsAlwaysAuth "anthropic" promptResultW
  have h3 := h.2.2.1 "bad key" rfl
  refine ⟨h3, ?_, ?_⟩
  · exact (h.2.2.2 (.authentication "bad key") rfl (by rw [h3])).1
  · exact (h.2.2.2 (.authentication "bad key") rfl (by rw [h3])).2

/-! ## Theorems: C9, simple policy rules -/

lemma buildRules_eq_specNumbered (cfg : Config) :
    ∀ (l : List String) (n : Nat),
      buildRules cfg l n =
        specNumberedRules n ((l.filter (fun m =>
          metricEnabled cfg m && (templateFor m).isSome)).filterMap templateFor) := by
  intro l
  induction l with
  | nil => intro n; rfl
  | cons m ms ih =>
    intro n
    by_cases h : (metricEnabled cfg m && (templateFor m).isSome) = true
    · have h2 := h
      rw [Bool.and_eq_true] at h2
      obtain ⟨t0, ht⟩ := Option.isSome_iff_exists.mp h2.2
      rw [List.filter_cons, if_pos h, List.filterMap_cons, ht]
      simp only [buildRules, h, if_true]
      simp only [specNumberedRules]
      rw [ih (n + 1)]
      simp [ht]
    · rw [List.filter_cons, if_neg h]
      simp only [buildRules]
      rw [if_neg h]
      exact ih n

set_option maxRecDepth 40000 in
/-- C9: simple-mode rule text numbers the enabled metrics contiguously from
RULE 1 in the configured priority order (completed with the remaining known
metrics) and skips disabled ones; in the scenario with order
wishlist_position then attendance and exactly those enabled, the text is
RULE 1 for the wishlist sentence then RULE 2 for the attendance sentence. -/
theorem simple_policy_rules_numbering :
    (∀ cfg : Config,
      generate_simple_policy_rules cfg =
        (if ((fullMetricOrder cfg).filter (fun m =>
              metricEnabled cfg m && (templateFor m).isSome)).filterMap templateFor
            = [] then "No additional rules configured."
         else String.intercalate "\n" (specNumberedRules 1
            (((fullMetricOrder cfg).filter (fun m =>
              metricEnabled cfg m && (templateFor m).isSome)).filterMap templateFor)))) ∧
    generate_simple_policy_rules cfgScenarioC9 =
      "RULE 1: Give preference to raiders who ranked this item higher on their wishlist (lower position = more desired).\nRULE 2: Give preference to raiders with higher attendance percentage." := by
  constructor
  · intro cfg
    have hb := buildRules_eq_specNumbered cfg (fullMetricOrder cfg) 1
    simp only [generate_simple_policy_rules, hb]
    rcases hl : ((fullMetricOrder cfg).filter (fun m =>
        metricEnabled cfg m && (templateFor m).isSome)).filterMap templateFor with
      _ | ⟨a, t⟩
    · simp [specNumberedRules]
    · simp [specNumberedRules]
  · decide

/-! ## Theorems: C2, candidate eligibility -/

lemma eligible_raiders_mem_of_find (ws : List WishlistRow) (ps : List Profile)
    (ids : List Nat) (ref : Int) (row : WishlistRow) (w : WishItem)
    (hrow : row ∈ ws)
    (hfind : row.wishlist.find? (wishItemEligible ids ref) = some w) :
    ({ name := row.name, wishlist_order := w.order, is_offspec := w.is_offspec,
       is_alt := lookup_is_alt ps row.name } : EligibleRaider) ∈
      eligible_raiders ws ps ids ref := by
  rw [eligible_raiders]
  apply List.mem_filterMap.mpr
  exact ⟨row, hrow, by rw [hfind]; rfl⟩

lemma eligible_raiders_mem_of_qualifying (ws : List WishlistRow) (ps : List Profile)
    (ids : List Nat) (ref : Int) (row : WishlistRow) (hrow : row ∈ ws)
    (hq : ∃ w ∈ row.wishlist, wishItemEligible ids ref w = true) :
    ∃ e ∈ eligible_raiders ws ps ids ref, e.name = row.name := by
  have hfind : (row.wishlist.find? (wishItemEligible ids ref)).isSome := by
    rw [List.find?_isSome]
    obtain ⟨w, hw1, hw2⟩ := hq
    exact ⟨w, hw1, hw2⟩
  obtain ⟨w, hw⟩ := Option.isSome_iff_exists.mp hfind
  exact ⟨_, eligible_raiders_mem_of_find ws ps ids ref row w hrow hw, rfl⟩

lemma eligible_raiders_mem_elim (ws : List WishlistRow) (ps : List Profile)
    (ids : List Nat) (ref : Int) (e : EligibleRaider)
    (he : e ∈ eligible_raiders ws ps ids ref) :
    ∃ row ∈ ws, ∃ w, row.wishlist.find? (wishItemEligible ids ref) = some w ∧
      e = { name := row.name, wishlist_order := w.order, is_offspec := w.is_offspec,
            is_alt := lookup_is_alt ps row.name } := by
  rw [eligible_raiders] at he
  obtain ⟨row, hrow, hmap⟩ := List.mem_filterMap.mp he
  rcases hfind : row.wishlist.find? (wishItemEligible ids ref) with _ | w
  · rw [hfind] at hmap
    simp at hmap
  · rw [hfind] at hmap
    have h2 : (⟨row.name, w.order, w.is_offspec,
        lookup_is_alt ps row.name⟩ : EligibleRaider) = e := by
      simpa using hmap
    subst h2
    exact ⟨row, hrow, w, hfind, rfl⟩

lemma eligible_raiders_cons (row : WishlistRow) (rest : List WishlistRow)
    (ps : List Profile) (ids : List Nat) (ref : Int) :
    eligible_raiders (row :: rest) ps ids ref =
      (match row.wishlist.find? (wishItemEligible ids ref) with
       | none => eligible_raiders rest ps ids ref
       | some w => (⟨row.name, w.order, w.is_offspec,
           lookup_is_alt ps row.name⟩ : EligibleRaider) ::
           eligible_raiders rest ps ids ref) := by
  rcases hf : row.wishlist.find? (wishItemEligible ids ref) with _ | w
  · rw [eligible_raiders, List.filterMap_cons, hf]
    rfl
  · rw [eligible_raiders, List.filterMap_cons, hf]
    rfl

lemma eligible_raiders_names_nodup (ws : List WishlistRow) (ps : List Profile)
    (ids : List Nat) (ref : Int)
    (h : (ws.map (fun r => r.name)).Nodup) :
    ((eligible_raiders ws ps ids ref).map (fun e => e.name)).Nodup := by
  induction ws with
  | nil => simp [eligible_raiders]
  | cons row rest ih =>
    rw [List.map_cons, List.nodup_cons] at h
    have hrest := ih h.2
    rw [eligible_raiders_cons]
    rcases hf : row.wishlist.find? (wishItemEligible ids ref) with _ | w
    · simp only [hf]
      exact hrest
    · simp only [hf]
      rw [List.map_cons, List.nodup_cons]
      refine ⟨?_, hrest⟩
      intro hmem
      apply h.1
      obtain ⟨e, he, hname⟩ := List.mem_map.mp hmem
      obtain ⟨r2, hr2, w2, _, he2⟩ := eligible_raiders_mem_elim rest ps ids ref e he
      have hname2 : e.name = row.name := hname
      rw [he2] at hname2
      refine List.mem_map.mpr ⟨r2, hr2, ?_⟩
      simpa using hname2

/-- C2 (amended): a raider appears among the scanned eligible raiders exactly
when some wishlist entry has a checked item id and qualifies under the source
rule: a present received date strictly after the reference date, or an absent
received date with the is_received flag unset (an entry with the flag set and
no date is skipped).  The record is built from the first qualifying entry,
and with distinct raider names each raider appears at most once. -/
theorem eligibility_scan_spec (wishlists_df : List WishlistRow)
    (profiles_df : List Profile) (item_ids : List Nat) (reference_date : Int) :
    (∀ row ∈ wishlists_df,
      ((∃ w ∈ row.wishlist, wishItemEligible item_ids reference_date w = true) ↔
        ∃ e ∈ eligible_raiders wishlists_df profiles_df item_ids reference_date,
          e.name = row.name ∧
          ∃ w, row.wishlist.find? (wishItemEligible item_ids reference_date)
              = some w ∧
            e.wishlist_order = w.order ∧ e.is_offspec = w.is_offspec)) ∧
    ((wishlists_df.map (fun r => r.name)).Nodup →
      ((eligible_raiders wishlists_df profiles_df item_ids reference_date).map
        (fun e => e.name)).Nodup) := by
  constructor
  · intro row hrow
    constructor
    · intro hq
      have hfind : (row.wishlist.find?
          (wishItemEligible item_ids reference_date)).isSome := by
        rw [List.find?_isSome]
        obtain ⟨w, hw1, hw2⟩ := hq
        exact ⟨w, hw1, hw2⟩
      obtain ⟨w, hw⟩ := Option.isSome_iff_exists.mp hfind
      refine ⟨_, eligible_raiders_mem_of_find wishlists_df profiles_df item_ids
        reference_date row w hrow hw, rfl, w, hw, rfl, rfl⟩
    · rintro ⟨e, _, _, w, hfind, _, _⟩
      exact ⟨w, List.mem_of_find?_eq_some hfind, List.find?_some hfind⟩
  · exact eligible_raiders_names_nodup wishlists_df profiles_df item_ids
      reference_date

/-- C2 counterexample: the entry of flagNoDateRow has its item id in the set
and no received timestamp, so the claim calls the raider eligible, but the
scan returns no candidates because the is_received flag with a missing date
skips the entry. -/
theorem eligibility_flag_without_date_counterexample :
    (∃ w ∈ flagNoDateRow.wishlist, w.item_id ∈ [1] ∧
      (w.received_at = none ∨ ∃ d, w.received_at = some d ∧ (0:Int) < d)) ∧
    eligible_raiders [flagNoDateRow] [] [1] 0 = [] := by
  constructor
  · exact ⟨⟨1, 1, false, true, none⟩, by simp [flagNoDateRow], by decide, Or.inl rfl⟩
  · decide

/-- Witness for eligibility_scan_spec at a one-row wishlist table. -/
theorem eligibility_scan_spec_witness :
    (∃ e ∈ eligible_raiders [openWishRow] [] [1] 0,
      e.name = openWishRow.name ∧
      ∃ w, openWishRow.wishlist.find? (wishItemEligible [1] 0) = some w ∧
        e.wishlist_order = w.order ∧ e.is_offspec = w.is_offspec) ∧
    ((eligible_raiders [openWishRow] [] [1] 0).map (fun e => e.name)).Nodup := by
  have h := eligibility_scan_spec [openWishRow] [] [1] 0
  refine ⟨(h.1 openWishRow (by simp)).mp ?_, h.2 (by decide)⟩
  exact ⟨⟨1, 2, false, false, none⟩, by simp [openWishRow], by decide⟩

/-! ## Theorems: C3 and C4, tier token and exchange resolution -/

lemma resolve_item_token_eq (cfg : Config) (nexus : List NexusItem)
    (groups : List TierGroup) (exchange_items : List ExchangeEntry)
    (item_name : String) (t : TierToken) (tv : Option String) (pid : Nat)
    (hTBC : isTBCClient cfg = true)
    (hfind : find_tier_token_with_version groups item_name = some (t, tv))
    (hplain : get_item_id nexus item_name = some pid) :
    resolve_item cfg nexus groups exchange_items item_name = .ok
      ⟨pid,
       (if (token_item_ids nexus t).isEmpty then [pid] else token_item_ids nexus t),
       t.ilvl, t.slot, some t, tv, none,
       "Candidates for: " ++ get_item_name nexus pid ++ " (" ++
         (match t.ilvl with
          | some n => if n ≠ 0 then "ilvl " ++ toString n else "ilvl ?"
          | none => "ilvl ?") ++ ") (" ++
         (match t.slot with
          | some s => if s ≠ "" then s else "Unknown Slot"
          | none => "Unknown Slot") ++ ")" ++ " [TIER TOKEN]"⟩ := by
  rw [resolve_item]
  simp only [hTBC, hfind, hplain, if_true, Option.isNone_some, Bool.and_false,
    Bool.true_and, Bool.false_eq_true, if_false, Option.isSome_some]
  rfl

lemma resolve_item_exchange_eq (cfg : Config) (nexus : List NexusItem)
    (groups : List TierGroup) (exchange_items : List ExchangeEntry)
    (item_name : String) (e : ExchangeEntry) (pid : Nat)
    (hTBC : isTBCClient cfg = true)
    (hno : find_tier_token_with_version groups item_name = none)
    (hex : find_exchange_item exchange_items item_name = some e)
    (hplain : get_item_id nexus item_name = some pid) :
    resolve_item cfg nexus groups exchange_items item_name = .ok
      ⟨pid,
       (if (exchange_item_ids nexus e).isEmpty then [pid]
        else exchange_item_ids nexus e),
       e.ilvl, get_item_slot nexus pid, none, none, some e,
       "Candidates for: " ++ get_item_name nexus pid ++ " (" ++
         (match e.ilvl with
          | some n => if n ≠ 0 then "ilvl " ++ toString n else "ilvl ?"
          | none => "ilvl ?") ++ ") (" ++
         (match get_item_slot nexus pid with
          | some s => if s ≠ "" then s else "Unknown Slot"
          | none => "Unknown Slot") ++ ")" ++ " [EXCHANGE ITEM]"⟩ := by
  rw [resolve_item]
  simp only [hTBC, hno, hex, if_true, Option.isNone_none, Bool.and_true,
    Bool.true_and, hplain, Option.isSome_some, Option.isSome_none,
    Bool.false_eq_true, if_false]
  rfl

lemma wishItemEligible_true (ids : List Nat) (ref : Int) (w : WishItem)
    (hid : w.item_id ∈ ids)
    (hrec : match w.received_at with
      | some d => ref < d
      | none => w.is_received = false) :
    wishItemEligible ids ref w = true := by
  have hc : ids.contains w.item_id = true := by
    simpa using hid
  rcases hw : w.received_at with _ | d
  · rw [hw] at hrec
    simp only [wishItemEligible, hc, hw] at hrec ⊢
    simp [hrec, hid]
  · rw [hw] at hrec
    have hrec2 : ref < d := hrec
    have hd : ¬ (d ≤ ref) := not_le.mpr hrec2
    simp only [wishItemEligible, hc, hw] at hd ⊢
    simp [hd, hid]

lemma mem_ids_fallback (i pid : Nat) (ids : List Nat) (h : i ∈ ids) :
    i ∈ (if ids.isEmpty then [pid] else ids) := by
  have hne : ids ≠ [] := List.ne_nil_of_mem h
  rw [if_neg (by simpa [List.isEmpty_iff] using hne)]
  exact h

lemma token_id_mem (nexus : List NexusItem) (t : TierToken) (i : Nat)
    (h : get_item_id nexus t.token_name = some i) (h0 : i ≠ 0) :
    i ∈ token_item_ids nexus t := by
  rw [token_item_ids, h]
  simp [truthyId, h0]

lemma compatible_id_mem (nexus : List NexusItem) (t : TierToken) (c : String)
    (i : Nat) (hc : c ∈ t.compatible_items)
    (h : get_item_id nexus c = some i) (h0 : i ≠ 0) :
    i ∈ token_item_ids nexus t := by
  rw [token_item_ids]
  refine List.mem_append.mpr (Or.inr ?_)
  refine List.mem_flatMap.mpr ⟨c, hc, ?_⟩
  rw [h]
  simp [truthyId, h0]

/-- C3: when a tier token is matched (through its own name or any compatible
item), the expanded checked-id list of the resolution contains the catalog id
of the token and of every compatible item (each resolving to a nonzero id),
and any raider whose wishlist holds any checked id un-received is matched by
the eligibility scan. -/
theorem tier_token_expansion (cfg : Config) (nexus : List NexusItem)
    (groups : List TierGroup) (exchange_items : List ExchangeEntry)
    (item_name : String) (t : TierToken) (tv : Option String) (pid : Nat)
    (hTBC : isTBCClient cfg = true)
    (hfind : find_tier_token_with_version groups item_name = some (t, tv))
    (hplain : get_item_id nexus item_name = some pid) :
    ∀ r, resolve_item cfg nexus groups exchange_items item_name = .ok r →
      (∀ i, get_item_id nexus t.token_name = some i → i ≠ 0 →
        i ∈ r.item_ids_to_check) ∧
      (∀ c ∈ t.compatible_items, ∀ i, get_item_id nexus c = some i → i ≠ 0 →
        i ∈ r.item_ids_to_check) ∧
      (∀ (wishlists_df : List WishlistRow) (profiles_df : List Profile)
          (reference_date : Int) (row : WishlistRow) (w : WishItem),
        row ∈ wishlists_df → w ∈ row.wishlist →
        w.item_id ∈ r.item_ids_to_check →
        (match w.received_at with
         | some d => reference_date < d
         | none => w.is_received = false) →
        ∃ e ∈ eligible_raiders wishlists_df profiles_df r.item_ids_to_check
            reference_date, e.name = row.name) := by
  intro r hr
  rw [resolve_item_token_eq cfg nexus groups exchange_items item_name t tv pid
    hTBC hfind hplain] at hr
  have hr2 := (Except.ok.injEq _ _).mp hr
  subst hr2
  refine ⟨?_, ?_, ?_⟩
  · intro i h h0
    exact mem_ids_fallback i pid _ (token_id_mem nexus t i h h0)
  · intro c hc i h h0
    exact mem_ids_fallback i pid _ (compatible_id_mem nexus t c i hc h h0)
  · intro ws ps ref row w hrow hw hid hrec
    exact eligible_raiders_mem_of_qualifying ws ps _ ref row hrow
      ⟨w, hw, wishItemEligible_true _ ref w hid hrec⟩

/-- C4: a name that is both a plain catalog entry and a member of a tier
token group resolves to the token data (token slot, token ilvl, expanded id
list, TIER TOKEN header tag); with no token match, a member of an exchange
group resolves to the exchange data (exchange ilvl, expanded id list,
EXCHANGE ITEM header tag), never to the plain single-item record alone. -/
theorem token_exchange_precedence (cfg : Config) (nexus : List NexusItem)
    (groups : List TierGroup) (exchange_items : List ExchangeEntry)
    (item_name : String) (pid : Nat)
    (hTBC : isTBCClient cfg = true)
    (hplain : get_item_id nexus item_name = some pid) :
    (∀ t tv, find_tier_token_with_version groups item_name = some (t, tv) →
      ∃ r, resolve_item cfg nexus groups exchange_items item_name = .ok r ∧
        r.tier_token = some t ∧ r.item_ilvl = t.ilvl ∧ r.item_slot = t.slot ∧
        r.item_ids_to_check =
          (if (token_item_ids nexus t).isEmpty then [pid]
           else token_item_ids nexus t) ∧
        r.tier_version = tv ∧ r.exchange_item = none ∧
        ∃ s, r.header = s ++ " [TIER TOKEN]") ∧
    (find_tier_token_with_version groups item_name = none →
      ∀ e, find_exchange_item exchange_items item_name = some e →
      ∃ r, resolve_item cfg nexus groups exchange_items item_name = .ok r ∧
        r.exchange_item = some e ∧ r.item_ilvl = e.ilvl ∧
        r.item_slot = get_item_slot nexus pid ∧
        r.item_ids_to_check =
          (if (exchange_item_ids nexus e).isEmpty then [pid]
           else exchange_item_ids nexus e) ∧
        r.tier_token = none ∧
        ∃ s, r.header = s ++ " [EXCHANGE ITEM]") := by
  constructor
  · intro t tv hfind
    exact ⟨_, resolve_item_token_eq cfg nexus groups exchange_items item_name t tv
      pid hTBC hfind hplain, rfl, rfl, rfl, rfl, rfl, rfl, _, rfl⟩
  · intro hno e hex
    exact ⟨_, resolve_item_exchange_eq cfg nexus groups exchange_items item_name e
      pid hTBC hno hex hplain, rfl, rfl, rfl, rfl, rfl, _, rfl⟩

/-! ## Theorems: C5, empty candidate pool versus item-not-found -/

lemma resolve_item_none (cfg : Config) (nexus : List NexusItem)
    (groups : List TierGroup) (exchange_items : List ExchangeEntry)
    (item_name : String)
    (h : get_item_id nexus item_name = none) :
    resolve_item cfg nexus groups exchange_items item_name =
      .error ("Item " ++ sqCh ++ item_name ++ sqCh ++
        " not found in item database") := by
  rw [resolve_item]
  simp only [h]

lemma resolve_item_ok_of_id (cfg : Config) (nexus : List NexusItem)
    (groups : List TierGroup) (exchange_items : List ExchangeEntry)
    (item_name : String) (pid : Nat)
    (h : get_item_id nexus item_name = some pid) :
    ∃ res, resolve_item cfg nexus groups exchange_items item_name = .ok res := by
  rw [resolve_item]
  simp only [h]
  exact ⟨_, rfl⟩

/-- C5: a catalog-resolvable name always yields an ok result, and when the
filtered eligible list is empty the result carries an empty candidates
DataFrame with the resolved header, slot and ilvl intact; an unresolvable
name yields the distinct item-not-found error instead. -/
theorem empty_candidates_result (cfg : Config) (nexus : List NexusItem)
    (groups : List TierGroup) (exchange_items : List ExchangeEntry)
    (item_notes_df : List ItemNote) (wishlists_df : List WishlistRow)
    (profiles_df : List Profile) (received_df : List ReceivedRow)
    (attendance_df : List AttendanceRow) (reference_date : Int)
    (item_name : String) :
    (get_item_id nexus item_name = none →
      generate_checking_candidates cfg nexus groups exchange_items item_notes_df
        wishlists_df profiles_df received_df attendance_df reference_date
        item_name = .error
          ("Item " ++ sqCh ++ item_name ++ sqCh ++ " not found in item database")) ∧
    (∀ pid, get_item_id nexus item_name = some pid →
      ∃ res r, resolve_item cfg nexus groups exchange_items item_name = .ok res ∧
        generate_checking_candidates cfg nexus groups exchange_items item_notes_df
          wishlists_df profiles_df received_df attendance_df reference_date
          item_name = .ok r ∧
        r.header = res.header ∧ r.item_slot = res.item_slot ∧
        r.item_ilvl = res.item_ilvl ∧ r.item_id = res.item_id ∧
        ((if !cfg.show_alt_status then
            (eligible_raiders wishlists_df profiles_df res.item_ids_to_check
              reference_date).filter (fun r => !r.is_alt)
          else eligible_raiders wishlists_df profiles_df res.item_ids_to_check
            reference_date).isEmpty = true → r.candidates_df = [])) := by
  constructor
  · intro h
    rw [generate_checking_candidates,
      resolve_item_none cfg nexus groups exchange_items item_name h]
  · intro pid hpid
    obtain ⟨res, hres⟩ := resolve_item_ok_of_id cfg nexus groups exchange_items
      item_name pid hpid
    by_cases hE : ((if !cfg.show_alt_status then
        (eligible_raiders wishlists_df profiles_df res.item_ids_to_check
          reference_date).filter (fun r => !r.is_alt)
      else eligible_raiders wishlists_df profiles_df res.item_ids_to_check
        reference_date).isEmpty = true)
    · refine ⟨res, ⟨res.header, res.item_id, res.item_slot, res.item_ilvl,
        get_item_note item_notes_df res.item_id (get_item_name nexus res.item_id),
        [], res.tier_token.map get_tier_set_bonuses, res.tier_version⟩,
        hres, ?_, rfl, rfl, rfl, rfl, fun _ => rfl⟩
      simp only [generate_checking_candidates, hres]
      rw [if_pos hE]
    · refine ⟨res, ⟨res.header, res.item_id, res.item_slot, res.item_ilvl,
        get_item_note item_notes_df res.item_id (get_item_name nexus res.item_id),
        sortByWishlistOrder ((if !cfg.show_alt_status then
            (eligible_raiders wishlists_df profiles_df res.item_ids_to_check
              reference_date).filter (fun r => !r.is_alt)
          else eligible_raiders wishlists_df profiles_df res.item_ids_to_check
            reference_date).map
          (build_candidate_row cfg profiles_df received_df attendance_df
            reference_date)),
        res.tier_token.map get_tier_set_bonuses, res.tier_version⟩,
        hres, ?_, rfl, rfl, rfl, rfl, fun hcontr => absurd hcontr hE⟩
      simp only [generate_checking_candidates, hres]
      rw [if_neg hE]

/-! ## Concrete data and witnesses for C3, C4, C5 -/

/-- Witness for tier_token_expansion: looking up compa (a compatible item,
lower case) checks both the token id and the compatible id, and the raider
wishing the token itself is matched. -/
theorem tier_token_expansion_witness :
    10 ∈ rTokenW.item_ids_to_check ∧ 11 ∈ rTokenW.item_ids_to_check ∧
    ∃ e ∈ eligible_raiders [wishRowW] [] rTokenW.item_ids_to_check 0,
      e.name = wishRowW.name := by
  have h := tier_token_expansion cfgW nexusW groupsW [] "compa" tokenW
    (some "Tier 5") 11 (by decide) (by decide) (by decide) rTokenW (by rfl)
  exact ⟨h.1 10 (by decide) (by decide),
    h.2.1 "CompA" (by decide) 11 (by decide) (by decide),
    h.2.2 [wishRowW] [] 0 wishRowW ⟨10, 3, false, false, none⟩ (by decide)
      (by decide) (h.1 10 (by decide) (by decide)) (by decide)⟩

/-- Witness for token_exchange_precedence: the token branch at the token
name, and the exchange branch at an exchangeable item name. -/
theorem token_exchange_precedence_witness :
    (∃ r, resolve_item cfgW nexusW groupsW [] "Tok" = .ok r ∧
      r.tier_token = some tokenW ∧ r.item_ilvl = tokenW.ilvl ∧
      r.item_slot = tokenW.slot ∧
      r.item_ids_to_check =
        (if (token_item_ids nexusW tokenW).isEmpty then [10]
         else token_item_ids nexusW tokenW) ∧
      r.tier_version = some "Tier 5" ∧ r.exchange_item = none ∧
      ∃ s, r.header = s ++ " [TIER TOKEN]") ∧
    (∃ r, resolve_item cfgW nexusE [] [exchangeEntryW] "reward" = .ok r ∧
      r.exchange_item = some exchangeEntryW ∧
      r.item_ilvl = exchangeEntryW.ilvl ∧
      r.item_slot = get_item_slot nexusE 21 ∧
      r.item_ids_to_check =
        (if (exchange_item_ids nexusE exchangeEntryW).isEmpty then [21]
         else exchange_item_ids nexusE exchangeEntryW) ∧
      r.tier_token = none ∧
      ∃ s, r.header = s ++ " [EXCHANGE ITEM]") := by
  constructor
  · exact (token_exchange_precedence cfgW nexusW groupsW [] "Tok" 10
      (by decide) (by decide)).1 tokenW (some "Tier 5") (by decide)
  · exact (token_exchange_precedence cfgW nexusE [] [exchangeEntryW] "reward" 21
      (by decide) (by decide)).2 (by decide) exchangeEntryW (by decide)

/-- Witness for empty_candidates_result: a missing name errors, a resolvable
name with no wishlist interest returns the empty-candidates result. -/
theorem empty_candidates_result_witness :
    generate_checking_candidates cfgW nexusW groupsW [] [] [] [] [] [] 0
      "missing" = .error
        ("Item " ++ sqCh ++ "missing" ++ sqCh ++ " not found in item database") ∧
    ∃ res r, resolve_item cfgW nexusW groupsW [] "Tok" = .ok res ∧
      generate_checking_candidates cfgW nexusW groupsW [] [] [] [] [] [] 0
        "Tok" = .ok r ∧
      r.header = res.header ∧ r.item_slot = res.item_slot ∧
      r.item_ilvl = res.item_ilvl ∧ r.item_id = res.item_id ∧
      ((if !cfgW.show_alt_status then
          (eligible_raiders [] [] res.item_ids_to_check 0).filter
            (fun r => !r.is_alt)
        else eligible_raiders [] [] res.item_ids_to_check 0).isEmpty = true →
        r.candidates_df = []) := by
  constructor
  · exact (empty_candidates_result cfgW nexusW groupsW [] [] [] [] [] [] 0
      "missing").1 (by decide)
  · exact (empty_candidates_result cfgW nexusW groupsW [] [] [] [] [] [] 0
      "Tok").2 10 (by decide)
